import Mathlib

/-!
Formal model of the session state controller of the practice-drill tracker
(`src/app.py`): screen navigation, stopwatch lifecycle, the bounded
favorites list, and the load/append/cache-invalidation contract with the
tabular record store.  Every definition is a direct translation of the
corresponding fragment of `app.py`; wall-clock instants and durations are
rationals, Python exceptions are modelled with `Except`/`Option`.
-/

set_option autoImplicit false

namespace Yamamoto

/-- A single cell of the tabular store: a string, a rational number, or a
natural number. -/
inductive Cell where
  | str (s : String)
  | num (q : ℚ)
  | nat (n : ℕ)
deriving DecidableEq

/-- A row of the tabular store, as an association list from column name to
cell value (a pandas row: columns the row does not have are simply absent). -/
abbrev Row := List (String × Cell)

/-- A pandas `DataFrame`: the list of column names together with the rows. -/
structure DataFrame where
  columns : List String
  rows : List Row
deriving DecidableEq

/-- The column layout of the record sheet, `expected_columns` in
`load_data` (`app.py` line 128): date, unit, level, problem, time,
number of mistakes. -/
def expected_columns : List String :=
  ["日付", "単元", "レベル", "問題", "タイム", "間違えた数"]

/-- The empty but schema-conformant dataset
`pd.DataFrame(columns=expected_columns)` that `load_data` degrades to. -/
def emptyDF : DataFrame :=
  { columns := expected_columns, rows := [] }

/-- `load_data` (`app.py` lines 123-134).  The raw read of the backing
sheet is an `Except`: `Except.error` models `_conn.read` raising (caught by
the `try/except`), `Except.ok df` a successful read.  A pandas frame is
`empty` when it has no rows or no columns; an empty frame or one missing
the `"日付"` column is replaced by the empty schema-conformant frame. -/
def load_data (res : Except Unit DataFrame) : DataFrame :=
  match res with
  | Except.error _ => emptyDF
  | Except.ok df =>
      if df.rows = [] ∨ df.columns = [] ∨ "日付" ∉ df.columns then emptyDF
      else df

/-- One persisted practice attempt: the entry dict built at
`app.py` lines 403-410. -/
structure Record where
  date : String
  unit : String
  level : String
  problem : String
  time : ℚ
  mistakes : ℕ
deriving DecidableEq

/-- The row `pd.DataFrame([entry])` contributes to the concatenation:
the entry dict of `app.py` lines 403-410 as an association list. -/
def entryRow (e : Record) : Row :=
  [("日付", Cell.str e.date), ("単元", Cell.str e.unit),
   ("レベル", Cell.str e.level), ("問題", Cell.str e.problem),
   ("タイム", Cell.num e.time), ("間違えた数", Cell.nat e.mistakes)]

/-- `pd.concat([df, pd.DataFrame([entry])], ignore_index=True)`
(`app.py` line 137): the columns are those of `df` followed by the entry
columns `df` lacks, and the entry row is appended after the rows of `df`. -/
def concat_entry (df : DataFrame) (e : Record) : DataFrame :=
  { columns := df.columns ++ expected_columns.filter (fun c => decide (c ∉ df.columns)),
    rows := df.rows ++ [entryRow e] }

instance : DecidableEq (Except Unit DataFrame) := fun a b =>
  match a, b with
  | Except.error _, Except.error _ => isTrue rfl
  | Except.ok d₁, Except.ok d₂ =>
      if h : d₁ = d₂ then isTrue (by rw [h])
      else isFalse (fun he => by cases he; exact h rfl)
  | Except.error _, Except.ok _ => isFalse (fun he => by cases he)
  | Except.ok _, Except.error _ => isFalse (fun he => by cases he)

/-- The per-session state of the record-store connection: the backing
sheet (which may be unreachable, `Except.error`), the `st.cache_data`
cache of `load_data` (valid within its 60-second TTL), and an
instrumentation counter of how many writes the store has received. -/
structure StoreState where
  sheet : Except Unit DataFrame
  cache : Option DataFrame
  writes : ℕ
deriving DecidableEq

/-- Calling `load_data(conn)` through the `@st.cache_data(ttl=60)`
decorator: a cached value is returned as-is; otherwise the read runs and
its result is cached. -/
def loadOp (st : StoreState) : DataFrame × StoreState :=
  match st.cache with
  | some df => (df, st)
  | none =>
      let df := load_data st.sheet
      (df, { st with cache := some df })

/-- `save_data` (`app.py` lines 136-139): a full read-modify-write that
replaces the whole sheet with `df` plus the appended entry
(`conn.update(worksheet="Sheet1", data=new_df)`), then invalidates the
read cache (`st.cache_data.clear()`). -/
def save_data (st : StoreState) (df : DataFrame) (e : Record) : StoreState :=
  { sheet := Except.ok (concat_entry df e),
    cache := none,
    writes := st.writes + 1 }

/-- The two screens of `st.session_state.current_screen`:
`"main"` (overview) and `"drill"`. -/
inductive Screen where
  | main
  | drill
deriving DecidableEq

/-- The per-session mutable state, `st.session_state`
(`app.py` lines 55-79). -/
structure SessionState where
  current_screen : Screen
  selected_unit : Option String
  selected_level : Option String
  favorites : List (String × String)
  selected_tab_unit : String
  selected_problem : Option String
  start_time : Option ℚ
  elapsed_time : ℚ
  is_running : Bool
deriving DecidableEq

/-- `init_session_state` (`app.py` lines 55-80): the defaults installed at
session start. -/
def init_session_state : SessionState :=
  { current_screen := Screen.main
    selected_unit := none
    selected_level := none
    favorites := []
    selected_tab_unit := "たし算"
    selected_problem := none
    start_time := none
    elapsed_time := 0
    is_running := false }

/-- `go_to_drill` (`app.py` lines 85-93): select the unit and level, move
to the drill screen, and reinitialise problem choice and timer. -/
def go_to_drill (unit level : String) (s : SessionState) : SessionState :=
  { s with selected_unit := some unit
           selected_level := some level
           current_screen := Screen.drill
           selected_problem := none
           elapsed_time := 0
           start_time := none
           is_running := false }

/-- `go_to_main` (`app.py` lines 95-99): back to the overview screen,
clearing the unit/level/problem selection and touching nothing else. -/
def go_to_main (s : SessionState) : SessionState :=
  { s with current_screen := Screen.main
           selected_unit := none
           selected_level := none
           selected_problem := none }

/-- `toggle_favorite` (`app.py` lines 101-109).  The returned `Bool` is
true when the capacity warning (`st.warning`, a rejected insertion) was
shown.  Membership removal is Python `list.remove` (first occurrence). -/
def toggle_favorite (unit level : String) (s : SessionState) :
    SessionState × Bool :=
  if (unit, level) ∈ s.favorites then
    ({ s with favorites := s.favorites.erase (unit, level) }, false)
  else if 3 ≤ s.favorites.length then
    (s, true)
  else
    ({ s with favorites := s.favorites ++ [(unit, level)] }, false)

/-- `set_tab_unit` (`app.py` lines 111-112). -/
def set_tab_unit (unit : String) (s : SessionState) : SessionState :=
  { s with selected_tab_unit := unit }

/-- `set_problem` (`app.py` lines 114-115). -/
def set_problem (p : String) (s : SessionState) : SessionState :=
  { s with selected_problem := some p }

/-- The duration of the blocking pre-start countdown of the 開始 (start)
button (`app.py` lines 340-344): three `time.sleep(1)` ticks plus the
`time.sleep(0.5)` go flash. -/
def countdown_duration : ℚ := 3 * 1 + 1 / 2

/-- The 開始 (start) button handler (`app.py` lines 339-350), with an
ideal clock in which each sleep advances the wall clock by exactly its
duration: pressed at instant `press`, it runs the blocking countdown and
only then captures `time.time()` as `start_time`, sets `is_running` and
zeroes `elapsed_time`. -/
def start_timer (press : ℚ) (s : SessionState) : SessionState :=
  { s with start_time := some (press + countdown_duration)
           is_running := true
           elapsed_time := 0 }

/-- The 停止 (stop) button handler (`app.py` lines 352-356), pressed at
instant `now`.  The body runs only when `is_running`; reading a `None`
`start_time` there would raise in Python, hence the `Option` result
(`none` models that crash, unreachable from any reachable state). -/
def stop_timer (now : ℚ) (s : SessionState) : Option SessionState :=
  if s.is_running then
    s.start_time.map (fun t0 =>
      { s with elapsed_time := now - t0, is_running := false })
  else
    some s

/-- The リセット (reset) button handler (`app.py` lines 358-363). -/
def reset_timer (s : SessionState) : SessionState :=
  { s with start_time := none
           elapsed_time := 0
           is_running := false }

/-- The 記録を保存して戻る (save) button handler (`app.py` lines
401-415): `unit`, `level` and `p` are the selection values read by
`display_drill_screen`, `input_time`/`input_mistakes` the form values.
Only a positive time is saved; on success the entry built from the
selection is appended via `save_data` and `go_to_main()` runs. -/
def save_click (today unit level problem : String) (input_time : ℚ)
    (input_mistakes : ℕ) (s : SessionState) (st : StoreState)
    (df : DataFrame) : SessionState × StoreState :=
  if 0 < input_time then
    (go_to_main s,
     save_data st df
       { date := today, unit := unit, level := level, problem := problem,
         time := input_time, mistakes := input_mistakes })
  else
    (s, st)

/-- Filtering the records of one unit/level,
`df[(df["単元"] == unit) & (df["レベル"] == level)]`
(`app.py` line 260). -/
def filter_records (df : DataFrame) (unit level : String) : List Row :=
  df.rows.filter (fun r =>
    decide ((r.find? (fun p => p.1 == "単元")).map Prod.snd
              = some (Cell.str unit)
            ∧ (r.find? (fun p => p.1 == "レベル")).map Prod.snd
              = some (Cell.str level)))

/-- Numeric value of a cell, for aggregating the `タイム` column. -/
def Cell.toNum : Cell → Option ℚ
  | Cell.num q => some q
  | Cell.nat n => some n
  | Cell.str _ => none

/-- The best-time aggregate of `display_main_screen` (`app.py` lines
260-268): `filtered_df["タイム"].min()` when matching records exist,
otherwise the no-data sentinel `"-"`, modelled as `none`. -/
def best_time (df : DataFrame) (unit level : String) : Option ℚ :=
  let f := filter_records df unit level
  if f = [] then none
  else (f.filterMap (fun r =>
    ((r.find? (fun p => p.1 == "タイム")).map Prod.snd).bind Cell.toNum)).min?

/-- One user interaction on the session state, as exposed by the rendered
widgets: the drill-screen widgets (problem buttons, timer buttons, save
button) exist only while that screen is displayed. -/
inductive Step : SessionState → SessionState → Prop where
  | goDrill (u l : String) (s : SessionState) :
      s.current_screen = Screen.main → Step s (go_to_drill u l s)
  | goMain (s : SessionState) :
      Step s (go_to_main s)
  | toggleFav (u l : String) (s : SessionState) :
      Step s (toggle_favorite u l s).1
  | setTab (u : String) (s : SessionState) :
      s.current_screen = Screen.main → Step s (set_tab_unit u s)
  | setProblem (p : String) (s : SessionState) :
      s.current_screen = Screen.drill → Step s (set_problem p s)
  | timerStart (t : ℚ) (s : SessionState) :
      s.current_screen = Screen.drill → Step s (start_timer t s)
  | timerStop (t : ℚ) (s s' : SessionState) :
      s.current_screen = Screen.drill → stop_timer t s = some s' → Step s s'
  | timerReset (s : SessionState) :
      s.current_screen = Screen.drill → Step s (reset_timer s)
  | save (d u l p : String) (t : ℚ) (m : ℕ) (st : StoreState)
      (df : DataFrame) (s : SessionState) :
      s.current_screen = Screen.drill →
      Step s (save_click d u l p t m s st df).1

/-- The session states reachable from the freshly initialised session. -/
inductive Reachable : SessionState → Prop where
  | init : Reachable init_session_state
  | step {s s' : SessionState} : Reachable s → Step s s' → Reachable s'

/-- The selection/screen correspondence the code actually maintains:
unit and level are present exactly on the drill screen; the problem
choice is absent on the main screen (on the drill screen it is absent
until a problem button is pressed). -/
def selection_ok (s : SessionState) : Prop :=
  (s.current_screen = Screen.main →
    s.selected_unit = none ∧ s.selected_level = none
      ∧ s.selected_problem = none)
  ∧ (s.current_screen = Screen.drill →
      s.selected_unit.isSome ∧ s.selected_level.isSome)

/-- A sequence of `toggle_favorite` calls, applied in order. -/
def run_toggles (ops : List (String × String)) (s : SessionState) :
    SessionState :=
  ops.foldl (fun s p => (toggle_favorite p.1 p.2 s).1) s

/-- A concrete post-measurement drill state: problem ① selected, timer
stopped at 6.5 seconds after a start whose countdown ended at instant
3.5. -/
def c2_state : SessionState :=
  { current_screen := Screen.drill
    selected_unit := some "たし算"
    selected_level := some "レベル1"
    favorites := []
    selected_tab_unit := "たし算"
    selected_problem := some "①"
    start_time := some (7 / 2)
    elapsed_time := 13 / 2
    is_running := false }

/-- A concrete store-connection state over an empty sheet. -/
def c2_store : StoreState :=
  { sheet := Except.ok emptyDF, cache := none, writes := 0 }

/-- A concrete session state whose favorites list is full (three
entries). -/
def c3_state : SessionState :=
  { init_session_state with
     favorites := [("たし算", "レベル1"), ("ひき算", "レベル2"), ("かけ算", "レベル3")] }

theorem toggle_favorite_frame (u l : String) (s : SessionState) :
    (toggle_favorite u l s).1.current_screen = s.current_screen ∧
    (toggle_favorite u l s).1.selected_unit = s.selected_unit ∧
    (toggle_favorite u l s).1.selected_level = s.selected_level ∧
    (toggle_favorite u l s).1.selected_problem = s.selected_problem := by
  unfold toggle_favorite
  split
  · exact ⟨rfl, rfl, rfl, rfl⟩
  · split
    · exact ⟨rfl, rfl, rfl, rfl⟩
    · exact ⟨rfl, rfl, rfl, rfl⟩

theorem stop_timer_frame {t : ℚ} {s s' : SessionState}
    (h : stop_timer t s = some s') :
    s'.current_screen = s.current_screen ∧
    s'.selected_unit = s.selected_unit ∧
    s'.selected_level = s.selected_level ∧
    s'.selected_problem = s.selected_problem := by
  unfold stop_timer at h
  split at h
  · cases hst : s.start_time with
    | none => rw [hst] at h; exact Option.noConfusion h
    | some t0 => rw [hst] at h; cases h; exact ⟨rfl, rfl, rfl, rfl⟩
  · cases h; exact ⟨rfl, rfl, rfl, rfl⟩

theorem selection_ok_of_frame {s s' : SessionState}
    (h1 : s'.current_screen = s.current_screen)
    (h2 : s'.selected_unit = s.selected_unit)
    (h3 : s'.selected_level = s.selected_level)
    (h4 : s'.selected_problem = s.selected_problem)
    (h : selection_ok s) : selection_ok s' := by
  unfold selection_ok at h ⊢
  rw [h1, h2, h3, h4]
  exact h

theorem selection_ok_step {s s' : SessionState} (hstep : Step s s')
    (ih : selection_ok s) : selection_ok s' := by
  cases hstep with
  | goDrill u l s0 hs =>
      exact ⟨fun hc => Screen.noConfusion hc, fun _ => ⟨rfl, rfl⟩⟩
  | goMain s0 =>
      exact ⟨fun _ => ⟨rfl, rfl, rfl⟩, fun hc => Screen.noConfusion hc⟩
  | toggleFav u l s0 =>
      have hf := toggle_favorite_frame u l s
      exact selection_ok_of_frame hf.1 hf.2.1 hf.2.2.1 hf.2.2.2 ih
  | setTab u s0 hs =>
      exact selection_ok_of_frame rfl rfl rfl rfl ih
  | setProblem p s0 hs =>
      exact ⟨fun hc => Screen.noConfusion (hs.symm.trans hc),
             fun _ => ih.2 hs⟩
  | timerStart t s0 hs =>
      exact selection_ok_of_frame rfl rfl rfl rfl ih
  | timerStop t s0 s1 hs hstop =>
      have hf := stop_timer_frame hstop
      exact selection_ok_of_frame hf.1 hf.2.1 hf.2.2.1 hf.2.2.2 ih
  | timerReset s0 hs =>
      exact selection_ok_of_frame rfl rfl rfl rfl ih
  | save d u l p t m st1 df s0 hs =>
      by_cases ht : 0 < t
      · have he : (save_click d u l p t m s st1 df).1 = go_to_main s := by
          simp [save_click, ht]
        rw [he]
        exact ⟨fun _ => ⟨rfl, rfl, rfl⟩, fun hc => Screen.noConfusion hc⟩
      · have he : (save_click d u l p t m s st1 df).1 = s := by
          simp [save_click, ht]
        rw [he]
        exact ih

theorem toggle_favorite_inv (u l : String) (s : SessionState)
    (hlen : s.favorites.length ≤ 3) (hnd : s.favorites.Nodup) :
    (toggle_favorite u l s).1.favorites.length ≤ 3 ∧
    (toggle_favorite u l s).1.favorites.Nodup := by
  unfold toggle_favorite
  by_cases hmem : (u, l) ∈ s.favorites
  · rw [if_pos hmem]
    exact ⟨le_trans (List.erase_sublist (u, l) s.favorites).length_le hlen,
           hnd.erase _⟩
  · rw [if_neg hmem]
    by_cases hcap : 3 ≤ s.favorites.length
    · rw [if_pos hcap]
      exact ⟨hlen, hnd⟩
    · rw [if_neg hcap]
      refine ⟨?_, ?_⟩
      · simp only [List.length_append, List.length_singleton]
        omega
      · refine List.Nodup.append hnd (List.nodup_singleton _) ?_
        intro a ha hb
        rw [List.mem_singleton] at hb
        subst hb
        exact hmem ha

theorem run_toggles_inv (ops : List (String × String)) (s : SessionState)
    (hlen : s.favorites.length ≤ 3) (hnd : s.favorites.Nodup) :
    (run_toggles ops s).favorites.length ≤ 3 ∧
    (run_toggles ops s).favorites.Nodup := by
  induction ops generalizing s with
  | nil => exact ⟨hlen, hnd⟩
  | cons p ops ih =>
      have h := toggle_favorite_inv p.1 p.2 s hlen hnd
      have hrun : run_toggles (p :: ops) s
          = run_toggles ops (toggle_favorite p.1 p.2 s).1 := rfl
      rw [hrun]
      exact ih _ h.1 h.2

/-- C1: the save handler never mutates the record store when the time to
be saved is not positive: the store's write count grows exactly when
`0 < input_time`, and for any non-positive time the session and the
store are returned unchanged. -/
theorem save_click_guard (d u l p : String) (t : ℚ) (m : ℕ)
    (s : SessionState) (st : StoreState) (df : DataFrame) :
    (save_click d u l p t m s st df).2.writes
      = st.writes + (if 0 < t then 1 else 0) ∧
    (t ≤ 0 → save_click d u l p t m s st df = (s, st)) := by
  constructor
  · by_cases h : 0 < t <;> simp [save_click, save_data, h]
  · intro h
    simp [save_click, not_lt.mpr h]

theorem save_click_guard_witness :
    (0 : ℚ) ≤ 0 ∧
    save_click "2026-01-01" "たし算" "レベル1" "①" 0 0
        init_session_state c2_store emptyDF
      = (init_session_state, c2_store) :=
  ⟨le_refl 0,
   (save_click_guard "2026-01-01" "たし算" "レベル1" "①" 0 0
      init_session_state c2_store emptyDF).2 (le_refl 0)⟩

/-- C4: the stop handler pressed at instant `now` while the timer is
running (with the captured start instant `t0`) sets
`elapsed_time = now - t0` and clears `is_running`; pressed while not
running it changes no state at all, so a second consecutive stop leaves
`elapsed_time` unchanged. -/
theorem stop_timer_spec (now now2 t0 : ℚ) (s : SessionState) :
    (s.is_running = false → stop_timer now s = some s) ∧
    (s.is_running = true → s.start_time = some t0 →
      stop_timer now s
        = some { s with elapsed_time := now - t0, is_running := false } ∧
      stop_timer now2 { s with elapsed_time := now - t0, is_running := false }
        = some { s with elapsed_time := now - t0, is_running := false }) := by
  refine ⟨fun h => ?_, fun h hst => ⟨?_, ?_⟩⟩
  · simp [stop_timer, h]
  · simp [stop_timer, h, hst]
  · simp [stop_timer]

theorem stop_timer_spec_witness :
    ({ init_session_state with
        is_running := true,
        start_time := some (2 : ℚ) } : SessionState).is_running = true ∧
    stop_timer 10
        { init_session_state with is_running := true, start_time := some (2 : ℚ) }
      = some { init_session_state with
                start_time := some (2 : ℚ),
                elapsed_time := 10 - 2,
                is_running := false } :=
  ⟨rfl,
   ((stop_timer_spec 10 11 2
      { init_session_state with
         is_running := true,
         start_time := some (2 : ℚ) }).2 rfl rfl).1⟩

/-- C7: the start handler captures `start_time` only after the blocking
countdown (three one-second ticks plus the half-second go flash) has
completed, sets the timer running with `elapsed_time = 0`, and therefore
any later stop computes an elapsed time from which the countdown delay is
excluded. -/
theorem start_timer_countdown (press now : ℚ) (s : SessionState) :
    (start_timer press s).is_running = true ∧
    (start_timer press s).elapsed_time = 0 ∧
    (start_timer press s).start_time = some (press + countdown_duration) ∧
    ∀ s', stop_timer now (start_timer press s) = some s' →
      s'.elapsed_time = now - press - countdown_duration := by
  refine ⟨rfl, rfl, rfl, fun s' h => ?_⟩
  have hs : stop_timer now (start_timer press s)
      = some { start_timer press s with
               elapsed_time := now - (press + countdown_duration),
               is_running := false } := by
    simp [stop_timer, start_timer]
  rw [hs] at h
  have := Option.some.inj h
  rw [← this]
  show now - (press + countdown_duration) = now - press - countdown_duration
  ring

theorem start_timer_countdown_witness :
    ({ start_timer 0 init_session_state with
        elapsed_time := 10 - ((0 : ℚ) + countdown_duration),
        is_running := false } : SessionState).elapsed_time
      = 10 - 0 - countdown_duration :=
  (start_timer_countdown 0 10 init_session_state).2.2.2 _
    (by simp [stop_timer, start_timer])

/-- C9: `go_to_main` modifies only the current screen and the three
selection fields; the timer fields and the favorites (and tab) keep
their values, and the elapsed time is zeroed only by the reset handler
or by the next `go_to_drill`. -/
theorem go_to_main_frame (s : SessionState) (u l : String) :
    go_to_main s
      = { s with current_screen := Screen.main, selected_unit := none,
                 selected_level := none, selected_problem := none } ∧
    (go_to_main s).start_time = s.start_time ∧
    (go_to_main s).elapsed_time = s.elapsed_time ∧
    (go_to_main s).is_running = s.is_running ∧
    (go_to_main s).favorites = s.favorites ∧
    (go_to_main s).selected_tab_unit = s.selected_tab_unit ∧
    (reset_timer s).elapsed_time = 0 ∧
    (go_to_drill u l s).elapsed_time = 0 :=
  ⟨rfl, rfl, rfl, rfl, rfl, rfl, rfl, rfl⟩

/-- C10: `load_data` normalises malformed shapes at the boundary:
whenever the raw read yields an empty table (no rows or no columns) or a
table lacking the `"日付"` column, the loaded contents are discarded and
the result is the empty dataset with exactly the six expected columns. -/
theorem load_data_normalises (df : DataFrame)
    (h : df.rows = [] ∨ df.columns = [] ∨ "日付" ∉ df.columns) :
    load_data (Except.ok df) = emptyDF ∧
    emptyDF.columns = ["日付", "単元", "レベル", "問題", "タイム", "間違えた数"] ∧
    emptyDF.rows = [] := by
  refine ⟨?_, rfl, rfl⟩
  simp only [load_data]
  rw [if_pos h]

theorem load_data_normalises_witness :
    (({ columns := ["単元"], rows := [] } : DataFrame).rows = []
      ∨ ({ columns := ["単元"], rows := [] } : DataFrame).columns = []
      ∨ "日付" ∉ ({ columns := ["単元"], rows := [] } : DataFrame).columns) ∧
    (load_data (Except.ok { columns := ["単元"], rows := [] }) = emptyDF ∧
     emptyDF.columns = ["日付", "単元", "レベル", "問題", "タイム", "間違えた数"] ∧
     emptyDF.rows = []) :=
  ⟨Or.inl rfl, load_data_normalises _ (Or.inl rfl)⟩

/-- C6: `load_data` never raises: for every behaviour of the underlying
store its result still carries the `"日付"` column; an unreachable store
degrades to the empty schema-conformant dataset, over which the
best-time aggregate returns the no-data sentinel. -/
theorem load_data_total (res : Except Unit DataFrame) (u l : String) :
    "日付" ∈ (load_data res).columns ∧
    load_data (Except.error ()) = emptyDF ∧
    best_time (load_data (Except.error ())) u l = none := by
  refine ⟨?_, rfl, ?_⟩
  · match res with
    | Except.error _ => simp [load_data, emptyDF, expected_columns]
    | Except.ok df =>
        simp only [load_data]
        split
        · simp [emptyDF, expected_columns]
        · next h =>
            push_neg at h
            exact h.2.2
  · simp [best_time, filter_records, load_data, emptyDF]

/-- C3: for every finite sequence of toggleFavorite calls starting from
the empty favorites list, the list never exceeds three entries and never
holds a duplicate (unit, level) pair; a toggle of a non-member pair when
the size is already 3 fails with the capacity warning and leaves the
list unchanged. -/
theorem toggle_favorite_bounded (ops : List (String × String)) :
    (run_toggles ops init_session_state).favorites.length ≤ 3 ∧
    (run_toggles ops init_session_state).favorites.Nodup ∧
    ∀ (u l : String) (s : SessionState), (u, l) ∉ s.favorites →
      s.favorites.length = 3 → toggle_favorite u l s = (s, true) := by
  obtain ⟨h1, h2⟩ := run_toggles_inv ops init_session_state
    (by decide) (by decide)
  refine ⟨h1, h2, fun u l s hmem h3 => ?_⟩
  unfold toggle_favorite
  rw [if_neg hmem, if_pos (le_of_eq h3.symm)]

theorem toggle_favorite_bounded_witness :
    ("わり算", "レベル9") ∉ c3_state.favorites ∧
    c3_state.favorites.length = 3 ∧
    toggle_favorite "わり算" "レベル9" c3_state = (c3_state, true) :=
  ⟨by decide, rfl,
   (toggle_favorite_bounded []).2.2 "わり算" "レベル9" c3_state (by decide) rfl⟩

/-- C5: read-after-write round trip within one session: a successful
append writes the full dataset with the record added and immediately
invalidates the read cache, so the next load returns a dataset that
includes the appended row. -/
theorem append_load_roundtrip (st : StoreState) (df : DataFrame)
    (r : Record) (hpos : 0 < r.time) :
    (save_data st df r).cache = none ∧
    entryRow r ∈ (loadOp (save_data st df r)).1.rows := by
  refine ⟨rfl, ?_⟩
  have hmem : "日付" ∈ (concat_entry df r).columns := by
    by_cases hc : "日付" ∈ df.columns
    · exact List.mem_append_left _ hc
    · refine List.mem_append_right _ ?_
      rw [List.mem_filter]
      exact ⟨by simp [expected_columns], by simp [hc]⟩
  have hrows : (concat_entry df r).rows ≠ [] := by
    simp [concat_entry]
  have hload : load_data (Except.ok (concat_entry df r)) = concat_entry df r := by
    simp only [load_data]
    rw [if_neg]
    push_neg
    exact ⟨hrows, List.ne_nil_of_mem hmem, hmem⟩
  have h1 : (loadOp (save_data st df r)).1 = concat_entry df r := by
    simp [loadOp, save_data, hload]
  rw [h1]
  simp [concat_entry]

theorem append_load_roundtrip_witness :
    (0 : ℚ) < (1 : ℚ) ∧
    ((save_data c2_store emptyDF
        ⟨"2026-01-01", "たし算", "レベル1", "①", 1, 0⟩).cache = none ∧
     entryRow ⟨"2026-01-01", "たし算", "レベル1", "①", 1, 0⟩
       ∈ (loadOp (save_data c2_store emptyDF
            ⟨"2026-01-01", "たし算", "レベル1", "①", 1, 0⟩)).1.rows) :=
  ⟨by norm_num,
   append_load_roundtrip c2_store emptyDF
     ⟨"2026-01-01", "たし算", "レベル1", "①", 1, 0⟩ (by norm_num)⟩

/-- C8 counterexample: immediately after `go_to_drill` the session is a
reachable state on the drill screen whose problem-variant selection is
still absent, refuting that all three selection fields are present
whenever the current screen is the drill screen. -/
theorem selection_claim_counterexample :
    Reachable (go_to_drill "たし算" "レベル1" init_session_state) ∧
    (go_to_drill "たし算" "レベル1" init_session_state).current_screen
      = Screen.drill ∧
    (go_to_drill "たし算" "レベル1" init_session_state).selected_problem
      = none :=
  ⟨Reachable.step Reachable.init
     (Step.goDrill "たし算" "レベル1" init_session_state rfl),
   rfl, rfl⟩

/-- C8 (amended): in every reachable session state the unit and level
selections are present exactly on the drill screen, and the
problem-variant selection is absent on the overview screen (on the drill
screen it stays absent until a problem is chosen); `go_to_drill`
followed immediately by `go_to_main` restores the selection to fully
absent on the overview screen, regardless of intervening timer state. -/
theorem selection_invariant (s : SessionState) (h : Reachable s) :
    selection_ok s ∧
    ∀ (u l : String) (s₀ : SessionState),
      (go_to_main (go_to_drill u l s₀)).current_screen = Screen.main ∧
      (go_to_main (go_to_drill u l s₀)).selected_unit = none ∧
      (go_to_main (go_to_drill u l s₀)).selected_level = none ∧
      (go_to_main (go_to_drill u l s₀)).selected_problem = none := by
  refine ⟨?_, fun u l s₀ => ⟨rfl, rfl, rfl, rfl⟩⟩
  induction h with
  | init =>
      exact ⟨fun _ => ⟨rfl, rfl, rfl⟩, fun hc => Screen.noConfusion hc⟩
  | step hr hstep ih =>
      exact selection_ok_step hstep ih

theorem selection_invariant_witness :
    selection_ok init_session_state ∧
    (go_to_main (go_to_drill "たし算" "レベル1" init_session_state)).selected_unit
      = none :=
  ⟨(selection_invariant init_session_state Reachable.init).1,
   ((selection_invariant init_session_state Reachable.init).2 "たし算" "レベル1"
      init_session_state).2.1⟩

/-- C2 counterexample: in a concrete state satisfying all the save
preconditions (drill screen, full selection, timer stopped with a
positive elapsed time), the save handler leaves `elapsed_time` at its
measured positive value and `start_time` set, so the timer is not reset
to idle with zero elapsed seconds. -/
theorem save_resets_timer_counterexample :
    c2_state.current_screen = Screen.drill ∧
    c2_state.is_running = false ∧
    (0 : ℚ) < c2_state.elapsed_time ∧
    (save_click "2026-01-01" "たし算" "レベル1" "①" c2_state.elapsed_time 0
        c2_state c2_store emptyDF).1.elapsed_time = c2_state.elapsed_time ∧
    c2_state.elapsed_time ≠ 0 ∧
    (save_click "2026-01-01" "たし算" "レベル1" "①" c2_state.elapsed_time 0
        c2_state c2_store emptyDF).1.start_time ≠ none := by
  have hpos : (0 : ℚ) < c2_state.elapsed_time := by norm_num [c2_state]
  refine ⟨rfl, rfl, hpos, ?_, by norm_num [c2_state], ?_⟩
  · simp [save_click, hpos, go_to_main]
  · simp [save_click, hpos, go_to_main, c2_state]

/-- C2 (amended): when the save preconditions hold (timer stopped with a
positive time to save and an active drill selection), the save handler
appends the record built from the selection plus the saved time and
mistakes count via the store's append, and afterwards the session is
back on the overview screen with the selection cleared; the timer fields
are left unchanged (the elapsed time keeps its value and is cleared only
by the reset handler or the next `go_to_drill`). -/
theorem save_success_navigation (d u l p : String) (t : ℚ) (m : ℕ)
    (s : SessionState) (st : StoreState) (df : DataFrame)
    (hstop : s.is_running = false) (hpos : 0 < t)
    (hu : s.selected_unit = some u) (hl : s.selected_level = some l)
    (hp : s.selected_problem = some p) :
    save_click d u l p t m s st df
      = (go_to_main s, save_data st df ⟨d, u, l, p, t, m⟩) ∧
    (go_to_main s).current_screen = Screen.main ∧
    (go_to_main s).selected_unit = none ∧
    (go_to_main s).selected_level = none ∧
    (go_to_main s).selected_problem = none ∧
    (go_to_main s).elapsed_time = s.elapsed_time ∧
    (go_to_main s).is_running = s.is_running ∧
    (go_to_main s).start_time = s.start_time ∧
    (save_data st df ⟨d, u, l, p, t, m⟩).writes = st.writes + 1 ∧
    entryRow ⟨d, u, l, p, t, m⟩
      ∈ (concat_entry df ⟨d, u, l, p, t, m⟩).rows := by
  refine ⟨by simp [save_click, hpos], rfl, rfl, rfl, rfl, rfl, rfl, rfl, rfl, ?_⟩
  simp [concat_entry]

theorem save_success_navigation_witness :
    c2_state.is_running = false ∧
    (0 : ℚ) < (13 : ℚ) / 2 ∧
    c2_state.selected_unit = some "たし算" ∧
    save_click "2026-01-01" "たし算" "レベル1" "①" (13 / 2) 0
        c2_state c2_store emptyDF
      = (go_to_main c2_state,
         save_data c2_store emptyDF
           ⟨"2026-01-01", "たし算", "レベル1", "①", 13 / 2, 0⟩) :=
  ⟨rfl, by norm_num, rfl,
   (save_success_navigation "2026-01-01" "たし算" "レベル1" "①" (13 / 2) 0
      c2_state c2_store emptyDF rfl (by norm_num) rfl rfl rfl).1⟩

end Yamamoto
